import Mathlib


/-!
# Verification of `build/ci/compare_benchmarks.py`

A shallow embedding, in Lean 4, of the benchmark-comparison script
`build/ci/compare_benchmarks.py`: the `go test -bench` line parser, the
benchmark-name normalizer, the per-file observation accumulator, the
mean/median aggregator, and the comparison/formatting code, together with
theorems about the claims of the specification.

Modelling conventions:
* Python `float` values are modelled as exact rationals (`ℚ`); the script
  only ever divides, multiplies and compares values that, for every claim
  below, are exactly representable, so rational arithmetic is the intended
  idealization of the float arithmetic.  The arithmetic operations are
  spelled `qadd`/`qsub`/`qmul`/`qdiv` (numerator/denominator arithmetic via
  `Rat.divInt`) so that every definition evaluates inside the kernel; each
  is proved equal to the corresponding field operation of `ℚ`.
* Python exceptions (`ValueError`, `ZeroDivisionError`,
  `statistics.StatisticsError`) are modelled with `Except String`; the
  error string carries the message the script would raise.
* File input is modelled as the list of the lines of the file; `dict`s are
  modelled as association lists in insertion order (the script relies on
  insertion order of `dict` / `OrderedDict`).
* The emoji, arrow and warning string literals of the source file are
  reproduced character-for-character (the file's bytes decoded as UTF-8).
-/

/-! ## Exact rational arithmetic that evaluates in the kernel -/

/-- Multiplication on `ℚ` via numerator/denominator arithmetic. -/
def qmul (a b : ℚ) : ℚ := Rat.divInt (a.num * b.num) ((a.den : ℤ) * b.den)

/-- Addition on `ℚ` via numerator/denominator arithmetic. -/
def qadd (a b : ℚ) : ℚ := Rat.divInt (a.num * b.den + b.num * a.den) ((a.den : ℤ) * b.den)

/-- Subtraction on `ℚ` via numerator/denominator arithmetic. -/
def qsub (a b : ℚ) : ℚ := Rat.divInt (a.num * b.den - b.num * a.den) ((a.den : ℤ) * b.den)

/-- Division on `ℚ` via numerator/denominator arithmetic (total, with the
`x / 0 = 0` convention of `ℚ`; the script guards every division). -/
def qdiv (a b : ℚ) : ℚ := Rat.divInt (a.num * b.den) ((a.den : ℤ) * b.num)

/-- Absolute value on `ℚ`, written out so that it evaluates by `decide`. -/
def qabs (q : ℚ) : ℚ := if q < 0 then -q else q

/-! ## Decimal rendering of naturals and rationals -/

/-- Decimal digits of a natural number, via explicit fuel so that the
definition is structurally recursive and kernel-reducible. -/
def natStrAux (fuel : Nat) (n : Nat) : List Char :=
  match fuel with
  | 0 => []
  | f + 1 =>
    if n < 10 then [Nat.digitChar n]
    else natStrAux f (n / 10) ++ [Nat.digitChar (n % 10)]

/-- Decimal rendering of a natural number. -/
def natStr (n : Nat) : String := ⟨natStrAux (n + 1) n⟩

/-- Floor of a rational, as an integer (`Int.fdiv` is floor division). -/
def ratFloor (q : ℚ) : ℤ := Int.fdiv q.num q.den

/-- Round a rational to the nearest integer, ties to even: the rounding
Python uses when formatting an exactly representable value with `:.2f`. -/
def roundHalfEven (q : ℚ) : ℤ :=
  let f := ratFloor q
  let r := qsub q (Rat.divInt f 1)
  if r < mkRat 1 2 then f
  else if mkRat 1 2 < r then f + 1
  else if f % 2 = 0 then f else f + 1

/-- Two-digit rendering (with a leading zero) of a value below 100,
used for the cents part of a fixed-point number. -/
def pad2 (n : Nat) : String := if n < 10 then "0" ++ natStr n else natStr n

/-- Python `f"{q:.2f}"`: fixed-point rendering with two decimals.  The sign
is taken from the value itself (as Python does), the digits from the
absolute value rounded to cents. -/
def formatFixed2 (q : ℚ) : String :=
  let cents := (roundHalfEven (qmul (qabs q) 100)).toNat
  (if q < 0 then "-" else "") ++ natStr (cents / 100) ++ "." ++ pad2 (cents % 100)

/-- Python `f"{q:+.2f}"`: like `formatFixed2` but with an explicit sign
also for non-negative values. -/
def formatSignedFixed2 (q : ℚ) : String :=
  let cents := (roundHalfEven (qmul (qabs q) 100)).toNat
  (if q < 0 then "-" else "+") ++ natStr (cents / 100) ++ "." ++ pad2 (cents % 100)

/-! ## String utilities mirroring the Python primitives -/

/-- One whitespace-splitting pass over a list of characters: the model of
`re.split(r"\s+", line.strip())` composed with dropping empty tokens
(an all-whitespace line yields no tokens, which the parser rejects for
having fewer than 3 of them, exactly as the script does). -/
def tokenizeAux (acc : List Char) : List Char → List (List Char)
  | [] => if acc.isEmpty then [] else [acc.reverse]
  | c :: cs =>
    if c.isWhitespace then
      if acc.isEmpty then tokenizeAux [] cs
      else acc.reverse :: tokenizeAux [] cs
    else tokenizeAux (c :: acc) cs

/-- Whitespace tokenization of a line. -/
def tokenize (line : String) : List String :=
  (tokenizeAux [] line.data).map fun cs => ⟨cs⟩

/-- Python `str.split(sep)` for a one-character separator: keeps empty
pieces and always returns at least one piece. -/
def pySplitAux (sep : Char) (acc : List Char) : List Char → List (List Char)
  | [] => [acc.reverse]
  | c :: cs =>
    if c = sep then acc.reverse :: pySplitAux sep [] cs
    else pySplitAux sep (c :: acc) cs

/-- Python `str.split(sep)` on a string, one-character separator. -/
def pySplit (s : String) (sep : Char) : List String :=
  (pySplitAux sep [] s.data).map fun cs => ⟨cs⟩

/-- Python `sep.join(pieces)`. -/
def joinSep (sep : String) : List String → String
  | [] => ""
  | [x] => x
  | x :: xs => x ++ sep ++ joinSep sep xs

/-- Left-to-right replacement of every non-overlapping occurrence of
`pat` by `rep` (the semantics of Python `str.replace`), with explicit
fuel so the definition is structurally recursive. -/
def replaceFuel (pat rep : List Char) (fuel : Nat) (l : List Char) : List Char :=
  match l, fuel with
  | [], _ => []
  | c :: rest, 0 => c :: rest
  | c :: rest, f + 1 =>
    if pat.isPrefixOf (c :: rest) && !pat.isEmpty then
      rep ++ replaceFuel pat rep f ((c :: rest).drop pat.length)
    else
      c :: replaceFuel pat rep f rest

/-- Python `s.replace(pat, rep)` (for the non-empty patterns the script
uses). -/
def replaceStr (s pat rep : String) : String :=
  ⟨replaceFuel pat.data rep.data s.data.length s.data⟩

/-- `true` iff `pat` occurs as a contiguous substring: the model of
Python `pat in s`. -/
def isInfixB (pat : List Char) : List Char → Bool
  | [] => pat.isEmpty
  | c :: rest => pat.isPrefixOf (c :: rest) || isInfixB pat rest

/-- Python `sub in s` on strings. -/
def strContainsStr (s sub : String) : Bool := isInfixB sub.data s.data

/-- Python `s.startswith(pre)`. -/
def strStartsWith (s pre : String) : Bool := pre.data.isPrefixOf s.data

/-! ## The metric configuration (`METRICS`, `EMOJIS`) -/

/-- One entry of the `METRICS` table: optional display name, optional
improvement direction, optional display scale (`dict.get` returns `None`
for a missing key, hence the `Option`s). -/
structure MetricConfig where
  displayName : Option String
  good_direction : Option String
  scale : Option ℚ
  deriving DecidableEq

/-- The `METRICS` table of the script: the two active (tracked) metrics.
`'MB/s'` has display name `'B/s'`, direction `'up'` and scale `2 ** 20`;
`'values/s'` has only direction `'up'`. -/
def METRICS : List (String × MetricConfig) :=
  [("MB/s", ⟨some "B/s", some "up", some (2 ^ 20)⟩),
   ("values/s", ⟨none, some "up", none⟩)]

/-- The `ns/op` entry that the source keeps in a comment inside `METRICS`
(`# 'ns/op': {'name': 's/op', 'good_direction': 'down', 'scale': 1e-9}`):
the one metric configuration with improvement direction `'down'`. -/
def nsOpConfig : MetricConfig := ⟨some "s/op", some "down", some (Rat.divInt 1 1000000000)⟩

/-- `METRICS[m]` as an optional lookup (`m in METRICS` iff the result is
`some`). -/
def metricsLookup (m : String) : Option MetricConfig :=
  (METRICS.find? fun p => p.1 == m).map fun p => p.2

/-- `EMOJIS['good']`, exactly the characters stored in the source file. -/
def emojiGood : String := "âš¡ï¸"

/-- `EMOJIS['bad']`, exactly the characters stored in the source file. -/
def emojiBad : String := "ðŸ’”"

/-- The ` ⚠` warning suffix of `format_metric_changes`, exactly the
characters stored in the source file. -/
def warnSuffix : String := " âš ï¸"

/-- The ` → ` separator of `format_metric_changes`, exactly the characters
stored in the source file. -/
def arrowSep : String := " â†’ "

/-! ## `format_benchmark_name` -/

/-- The pairing loop of `format_benchmark_name`:
`for i in range(0, len(params_split) - 1, 2)` emits `key=value` for
consecutive pairs and silently drops an odd trailing element. -/
def pairUp : List String → List String
  | k :: v :: rest => (k ++ "=" ++ v) :: pairUp rest
  | _ => []

/-- Everything `format_benchmark_name` does after the `"Benchmark"`
replacement: collapse `"/CI/"`, split on `"/"`, join all but the last
segment with spaces, and render the last segment's dash-separated
pairs as `key=value` parameters. -/
def fbnRest (n1 : String) : String :=
  let n2 := replaceStr n1 "/CI/" "/"
  match pySplit n2 '/' with
  | [] => ""
  | [p] => p
  | parts =>
    let base_name := joinSep " " parts.dropLast
    let params_split := pySplit ((parts.getLast?).getD "") '-'
    let params := pairUp params_split
    if params.isEmpty then base_name
    else base_name ++ " (" ++ joinSep ", " params ++ ")"

/-- `format_benchmark_name`: `name.replace("Benchmark", "")`, then the
rest of the pipeline. -/
def format_benchmark_name (name : String) : String :=
  fbnRest (replaceStr name "Benchmark" "")

/-! ## Python `float()` on a token -/

/-- Split a character list at the first character satisfying `p`,
returning the pieces before and after it. -/
def splitFirst (p : Char → Bool) : List Char → Option (List Char × List Char)
  | [] => none
  | c :: cs =>
    if p c then some ([], cs)
    else (splitFirst p cs).map fun pr => (c :: pr.1, pr.2)

/-- Numeric value of a list of decimal digit characters. -/
def digitsToNat (l : List Char) : Nat :=
  l.foldl (fun a c => a * 10 + (c.toNat - 48)) 0

/-- The mantissa of a float literal: digits with an optional decimal
point, at least one digit overall. -/
def parseMantissa (cs : List Char) : Option ℚ :=
  match splitFirst (fun c => c = '.') cs with
  | none =>
    if !cs.isEmpty && cs.all Char.isDigit then some (Rat.divInt (digitsToNat cs) 1) else none
  | some (ip, fp) =>
    if (!ip.isEmpty || !fp.isEmpty) && ip.all Char.isDigit && fp.all Char.isDigit then
      some (Rat.divInt (digitsToNat ip * 10 ^ fp.length + digitsToNat fp) (10 ^ fp.length))
    else none

/-- The exponent part of a float literal: optional sign, then at least
one digit. -/
def parseExpPart (cs : List Char) : Option ℤ :=
  match cs with
  | '+' :: t => if !t.isEmpty && t.all Char.isDigit then some (digitsToNat t) else none
  | '-' :: t => if !t.isEmpty && t.all Char.isDigit then some (-(digitsToNat t : ℤ)) else none
  | t => if !t.isEmpty && t.all Char.isDigit then some (digitsToNat t) else none

/-- Ten to an integer power, as a rational. -/
def qpow10 (z : ℤ) : ℚ :=
  if 0 ≤ z then Rat.divInt (10 ^ z.toNat) 1 else Rat.divInt 1 (10 ^ (-z).toNat)

/-- Python `float(token)`, modelled for the decimal forms
`[+-]digits[.digits][(e|E)[+-]digits]` that benchmark output contains
(`inf`/`nan`/underscores/surrounding whitespace are not modelled; every
claim about parse failure only assumes the token fails to parse, and
every concrete token used below parses identically in Python).
`none` models `float()` raising `ValueError`. -/
def pythonFloat (s : String) : Option ℚ :=
  let signAndRest : ℚ × List Char :=
    match s.data with
    | '+' :: t => (1, t)
    | '-' :: t => (-1, t)
    | t => (1, t)
  let sgn := signAndRest.1
  let cs := signAndRest.2
  match splitFirst (fun c => c = 'e' || c = 'E') cs with
  | none => (parseMantissa cs).map fun m => qmul sgn m
  | some (m, e) =>
    match parseMantissa m, parseExpPart e with
    | some mv, some ev => some (qmul sgn (qmul mv (qpow10 ev)))
    | _, _ => none

/-! ## `parse_bench_line` -/

/-- Decidable equality for `Except`, so that concrete results can be
checked by `decide`. -/
instance {ε α : Type} [DecidableEq ε] [DecidableEq α] : DecidableEq (Except ε α) := fun x y =>
  match x, y with
  | .ok a, .ok b =>
    if h : a = b then isTrue (by rw [h]) else isFalse (by simp [h])
  | .error a, .error b =>
    if h : a = b then isTrue (by rw [h]) else isFalse (by simp [h])
  | .ok _, .error _ => isFalse (by simp)
  | .error _, .ok _ => isFalse (by simp)

/-- The message of the `ValueError` raised by `parse_bench_line`:
`f"Failed to parse value '{value}' for '{metric}'"`. -/
def errMsg (value metric : String) : String :=
  "Failed to parse value \x27" ++ value ++ "\x27 for \x27" ++ metric ++ "\x27"

/-- `metrics[metric] = v` on an insertion-ordered association list:
overwrites in place or appends at the end, the update rule of a Python
`dict`. -/
def dictInsert (k : String) (v : ℚ) : List (String × ℚ) → List (String × ℚ)
  | [] => [(k, v)]
  | (k1, v1) :: rest =>
    if k1 == k then (k1, v) :: rest else (k1, v1) :: dictInsert k v rest

/-- `zip(parts[2::2], parts[3::2])` applied to the tokens after the first
two: consecutive `(value, metric)` pairs, a trailing unpaired token
dropped. -/
def toPairs : List String → List (String × String)
  | v :: m :: rest => (v, m) :: toPairs rest
  | _ => []

/-- The metric loop of `parse_bench_line`: skip pairs whose metric is not
in `METRICS`, parse the value of a known metric and store it, raise
`ValueError` when that parse fails. -/
def parsePairs : List (String × String) → List (String × ℚ) →
    Except String (List (String × ℚ))
  | [], acc => .ok acc
  | (value, metric) :: rest, acc =>
    if (metricsLookup metric).isSome then
      match pythonFloat value with
      | some v => parsePairs rest (dictInsert metric v acc)
      | none => .error (errMsg value metric)
    else
      parsePairs rest acc

/-- `parse_bench_line`: tokenize; reject (returning `none`, the model of
`(None, None)`) any line with fewer than 3 tokens, or whose first token
does not start with `"Benchmark"` or does not contain `"/CI/"`; otherwise
normalize the name and run the metric loop on the `(value, metric)`
pairs formed by the tokens after the first two. -/
def parse_bench_line (line : String) : Except String (Option (String × List (String × ℚ))) :=
  match tokenize line with
  | p0 :: _ :: r2 :: rest =>
    if strStartsWith p0 "Benchmark" && strContainsStr p0 "/CI/" then
      Except.map (fun ms => some (format_benchmark_name p0, ms))
        (parsePairs (toPairs (r2 :: rest)) [])
    else
      .ok none
  | _ => .ok none

/-! ## `parse_metrics_file` -/

/-- The fresh per-benchmark dictionary `{m: [] for m in METRICS.keys()}`. -/
def initMetrics : List (String × List ℚ) := METRICS.map fun p => (p.1, [])

/-- `results[name][metric].append(value)`, the inner dictionary. -/
def appendInner (m : String) (v : ℚ) : List (String × List ℚ) → List (String × List ℚ)
  | [] => []
  | (k, vs) :: rest =>
    if k == m then (k, vs ++ [v]) :: rest else (k, vs) :: appendInner m v rest

/-- `results[name][metric].append(value)`, locating the benchmark. -/
def appendObs (name m : String) (v : ℚ) :
    List (String × List (String × List ℚ)) → List (String × List (String × List ℚ))
  | [] => []
  | (b, ms) :: rest =>
    if b == name then (b, appendInner m v ms) :: rest
    else (b, ms) :: appendObs name m v rest

/-- The `for metric_name, value in metrics.items()` loop of
`parse_metrics_file`. -/
def applyObs (name : String) : List (String × ℚ) →
    List (String × List (String × List ℚ)) → List (String × List (String × List ℚ))
  | [], r => r
  | (m, v) :: tl, r => applyObs name tl (appendObs name m v r)

/-- The per-line loop of `parse_metrics_file` over the lines of the file,
threading the `results` dictionary; a `ValueError` from
`parse_bench_line` aborts the whole read. -/
def parseLinesAux : List String → List (String × List (String × List ℚ)) →
    Except String (List (String × List (String × List ℚ)))
  | [], results => .ok results
  | line :: rest, results =>
    match parse_bench_line line with
    | .error e => .error e
    | .ok none => parseLinesAux rest results
    | .ok (some (name_test, metrics)) =>
      if metrics.isEmpty then parseLinesAux rest results
      else
        let results1 :=
          if results.any fun p => p.1 == name_test then results
          else results ++ [(name_test, initMetrics)]
        parseLinesAux rest (applyObs name_test metrics results1)

/-- `parse_metrics_file`, with the file given as its list of lines. -/
def parse_metrics_file (lines : List String) :
    Except String (List (String × List (String × List ℚ))) :=
  parseLinesAux lines []

/-! ## `aggregate_results` -/

/-- The aggregation method selected by `--aggregation`. -/
inductive AggMethod where
  | mean
  | median
  deriving DecidableEq

/-- Insert into a list kept in ascending order. -/
def insertSorted (x : ℚ) : List ℚ → List ℚ
  | [] => [x]
  | y :: ys => if x ≤ y then x :: y :: ys else y :: insertSorted x ys

/-- Ascending sort, as `statistics.median` performs internally. -/
def sortQ (l : List ℚ) : List ℚ := l.foldr insertSorted []

/-- `statistics.mean`: raises `StatisticsError` on an empty list. -/
def statMean (vals : List ℚ) : Except String ℚ :=
  if vals.isEmpty then
    .error "statistics.StatisticsError: mean requires at least one data point"
  else
    .ok (qdiv (vals.foldr qadd 0) (Rat.divInt vals.length 1))

/-- `statistics.median`: sort, take the middle element (odd length) or
the average of the two middle elements (even length); raises
`StatisticsError` on an empty list. -/
def statMedian (vals : List ℚ) : Except String ℚ :=
  let s := sortQ vals
  let n := s.length
  if n = 0 then
    .error "statistics.StatisticsError: no median for empty data"
  else if n % 2 = 1 then
    .ok ((s.get? (n / 2)).getD 0)
  else
    .ok (qdiv (qadd ((s.get? (n / 2 - 1)).getD 0) ((s.get? (n / 2)).getD 0)) 2)

/-- The reducer picked by the `method` argument of `aggregate_results`. -/
def applyMethod (method : AggMethod) (vals : List ℚ) : Except String ℚ :=
  match method with
  | .mean => statMean vals
  | .median => statMedian vals

/-- The inner loop of `aggregate_results`: reduce each metric's
observation list. -/
def aggMetrics (method : AggMethod) : List (String × List ℚ) →
    Except String (List (String × ℚ))
  | [] => .ok []
  | (m, vals) :: rest =>
    match applyMethod method vals, aggMetrics method rest with
    | .error e, _ => .error e
    | .ok v, .ok tail => .ok ((m, v) :: tail)
    | .ok _, .error e => .error e

/-- `aggregate_results` over the parsed per-benchmark observations. -/
def aggregate_results (parsed : List (String × List (String × List ℚ)))
    (method : AggMethod) : Except String (List (String × List (String × ℚ))) :=
  match parsed with
  | [] => .ok []
  | (bench, metrics) :: rest =>
    match aggMetrics method metrics, aggregate_results rest method with
    | .error e, _ => .error e
    | .ok ms, .ok tail => .ok ((bench, ms) :: tail)
    | .ok _, .error e => .error e

/-! ## `humanize_number` and `format_metric_changes` -/

/-- `humanize_number(val, scale)`: `"?"` for a missing value, otherwise
scale, then render with an `M`/`K` suffix for magnitudes of at least a
million / a thousand, else plainly, always with two decimals. -/
def humanize_number (val : Option ℚ) (scale : ℚ) : String :=
  match val with
  | none => "?"
  | some v0 =>
    let v := qmul v0 scale
    if 1000000 ≤ qabs v then formatFixed2 (qdiv v 1000000) ++ "M"
    else if 1000 ≤ qabs v then formatFixed2 (qdiv v 1000) ++ "K"
    else formatFixed2 v

/-- The body of `format_metric_changes` for one metric configuration
(the script looks the configuration up as `METRICS[metric_name]`; the
three `.get` accesses of that configuration appear here).  Both sides
present: percentage change `(new_val / old_val - 1) * 100`, raising
`ZeroDivisionError` when `old_val == 0`; the alert emoji is attached when
`abs(change_pct) >= alert_threshold`, the good one exactly if
`good_direction == 'up' and change_pct > 0`.  A missing side yields the
warning suffix instead. -/
def formatMetricChangesCfg (cfg : MetricConfig) (old_val new_val : Option ℚ)
    (alert_threshold : ℚ) : Except String String :=
  let scale := cfg.scale.getD 1
  let old_val_str := humanize_number old_val scale
  let new_val_str := humanize_number new_val scale
  match old_val, new_val with
  | some o, some n =>
    if o = 0 then .error "ZeroDivisionError: float division by zero"
    else
      let change_pct := qmul (qsub (qdiv n o) 1) 100
      let pct_str := " (" ++ formatSignedFixed2 change_pct ++ "%)"
      let suffix :=
        if alert_threshold ≤ qabs change_pct then
          let is_better := cfg.good_direction == some "up" && decide (0 < change_pct)
          pct_str ++ " " ++ (if is_better then emojiGood else emojiBad)
        else pct_str
      .ok (old_val_str ++ arrowSep ++ new_val_str ++ suffix)
  | _, _ => .ok (old_val_str ++ arrowSep ++ new_val_str ++ warnSuffix)

/-- `format_metric_changes(metric_name, old_val, new_val, alert_threshold)`;
the `METRICS[metric_name]` lookup raises `KeyError` for an unknown name
(never reached by the script, which iterates over `METRICS`). -/
def format_metric_changes (metric_name : String) (old_val new_val : Option ℚ)
    (alert_threshold : ℚ) : Except String String :=
  match metricsLookup metric_name with
  | some cfg => formatMetricChangesCfg cfg old_val new_val alert_threshold
  | none => .error ("KeyError: \x27" ++ metric_name ++ "\x27")

/-! ## `compare_benchmarks_df` (rows; markdown rendering is external) -/

/-- `old_metrics.get(bench_name, {})`. -/
def getBench (agg : List (String × List (String × ℚ))) (b : String) : List (String × ℚ) :=
  ((agg.find? fun p => p.1 == b).map fun p => p.2).getD []

/-- `{...}.get(metric_name, None)`. -/
def getMetric (ms : List (String × ℚ)) (m : String) : Option ℚ :=
  (ms.find? fun p => p.1 == m).map fun p => p.2

/-- `all_metrics = OrderedDict(); all_metrics.update(old); all_metrics.update(new)`
keeps the keys of `old` in order followed by the keys of `new` that are
not already present. -/
def unionKeys (a b : List String) : List String :=
  a ++ b.filter fun k => !a.contains k

/-- The cells of one report row: one formatted comparison per entry of
`METRICS`, in table order; an exception from `format_metric_changes`
aborts the report. -/
def rowCells (old_metrics new_metrics : List (String × List (String × ℚ)))
    (bench : String) (alert_threshold : ℚ) :
    List (String × MetricConfig) → Except String (List String)
  | [] => .ok []
  | (m, _) :: ms =>
    match format_metric_changes m (getMetric (getBench old_metrics bench) m)
        (getMetric (getBench new_metrics bench) m) alert_threshold,
      rowCells old_metrics new_metrics bench alert_threshold ms with
    | .error e, _ => .error e
    | .ok c, .ok cs => .ok (c :: cs)
    | .ok _, .error e => .error e

/-- The row loop of `compare_benchmarks_df`: one row per benchmark of the
union, each row the benchmark's display name with its metric cells
(the markdown serialization of the resulting table is an external
collaborator and is not modelled). -/
def compareRowsGo (old_metrics new_metrics : List (String × List (String × ℚ)))
    (alert_threshold : ℚ) : List String → Except String (List (String × List String))
  | [] => .ok []
  | b :: bs =>
    match rowCells old_metrics new_metrics b alert_threshold METRICS,
      compareRowsGo old_metrics new_metrics alert_threshold bs with
    | .error e, _ => .error e
    | .ok cells, .ok tail => .ok ((b, cells) :: tail)
    | .ok _, .error e => .error e

/-- The full row list of `compare_benchmarks_df`. -/
def compare_benchmarks_rows (old_metrics new_metrics : List (String × List (String × ℚ)))
    (alert_threshold : ℚ) : Except String (List (String × List String)) :=
  compareRowsGo old_metrics new_metrics alert_threshold
    (unionKeys (old_metrics.map fun p => p.1) (new_metrics.map fun p => p.1))

/-- The first `(value, metric)` pair of a benchmark line whose metric is
known but whose value does not parse as a float: the pair whose
`ValueError` `parse_bench_line` raises. -/
def firstFail : List (String × String) → Option (String × String)
  | [] => none
  | (value, metric) :: rest =>
    if (metricsLookup metric).isSome && (pythonFloat value).isNone then some (value, metric)
    else firstFail rest

/-- The key-shape invariant of the `results` dictionary of
`parse_metrics_file`: every benchmark entry carries exactly the metric
names of `METRICS`, in table order. -/
def GoodKeys (r : List (String × List (String × List ℚ))) : Prop :=
  ∀ p ∈ r, p.2.map Prod.fst = METRICS.map Prod.fst

theorem qmul_eq (a b : ℚ) : qmul a b = a * b := by
  rw [qmul, ← Rat.divInt_mul_divInt', Rat.num_divInt_den, Rat.num_divInt_den]

theorem qadd_eq (a b : ℚ) : qadd a b = a + b := by
  rw [qadd, ← Rat.divInt_add_divInt _ _ (by exact_mod_cast a.den_nz) (by exact_mod_cast b.den_nz),
    Rat.num_divInt_den, Rat.num_divInt_den]

theorem qsub_eq (a b : ℚ) : qsub a b = a - b := by
  rw [qsub, ← Rat.divInt_sub_divInt _ _ (by exact_mod_cast a.den_nz) (by exact_mod_cast b.den_nz),
    Rat.num_divInt_den, Rat.num_divInt_den]

theorem qdiv_eq (a b : ℚ) : qdiv a b = a / b := by
  rw [qdiv, Rat.div_def']

theorem qabs_eq (q : ℚ) : qabs q = |q| := by
  rw [qabs, abs]
  rcases lt_trichotomy q 0 with h | h | h
  · rw [if_pos h]
    exact (max_eq_right (by linarith)).symm
  · simp [h]
  · rw [if_neg (by linarith)]
    exact (max_eq_left (by linarith)).symm

example : natStr 1234 = "1234" := by decide

example : formatFixed2 (999 : ℚ) = "999.00" := by decide

example : formatFixed2 (Rat.divInt (-1) 8) = "-0.12" := by decide

example : formatSignedFixed2 (10 : ℚ) = "+10.00" := by decide

example : formatSignedFixed2 (0 : ℚ) = "+0.00" := by decide

example : formatSignedFixed2 (-10 : ℚ) = "-10.00" := by decide

example : formatFixed2 (qdiv 999999 1000) = "1000.00" := by decide

example : tokenize "  BenchmarkFoo/CI/cpu-4   2569041  475.5 ns/op " =
    ["BenchmarkFoo/CI/cpu-4", "2569041", "475.5", "ns/op"] := by decide

example : pySplit "a//b" '/' = ["a", "", "b"] := by decide

example : pySplit "" '/' = [""] := by decide

example : replaceStr "FooBenchmarkBar" "Benchmark" "" = "FooBar" := by decide

example : replaceStr "Foo/CI/Bar" "/CI/" "/" = "Foo/Bar" := by decide

example : strContainsStr "BenchmarkFoo/CI/cpu-4" "/CI/" = true := by decide

example : strStartsWith "BenchmarkFoo" "Benchmark" = true := by decide

example : format_benchmark_name "BenchmarkPartitioning/CI/cpu-4" = "Partitioning (cpu=4)" := by
  decide

example : format_benchmark_name "Foo/Bar/CI/cpu-4" = "Foo Bar (cpu=4)" := by decide

example : format_benchmark_name "Foo" = "Foo" := by decide

example : format_benchmark_name "FooBenchmark" = "Foo" := by decide

example : format_benchmark_name "BenchmarkX/CI/a-1" = "X (a=1)" := by decide

example : pythonFloat "475.5" = some (Rat.divInt 951 2) := by decide

example : pythonFloat "2569041" = some 2569041 := by decide

example : pythonFloat "5.0" = some 5 := by decide

example : pythonFloat "-1.5e2" = some (-150) := by decide

example : pythonFloat "1e-2" = some (mkRat 1 100) := by decide

example : pythonFloat "abc" = none := by decide

example : pythonFloat "" = none := by decide

example : pythonFloat "." = none := by decide

example : pythonFloat "1.2.3" = none := by decide

example :
    parse_bench_line "BenchmarkPartitioning/CI/cpu-4  2569041  475.5 ns/op  218.73 MB/s  8412793 rows/s  16825587 values/s" =
      .ok (some ("Partitioning (cpu=4)",
        [("MB/s", mkRat 21873 100), ("values/s", 16825587)])) := by decide

example : parse_bench_line "ok   sdvg 12.3s" = .ok none := by decide

example : parse_bench_line "BenchmarkFoo 12 13 MB/s" = .ok none := by decide

example : parse_bench_line "BenchmarkX/CI/a-1 100 abc MB/s" =
    .error (errMsg "abc" "MB/s") := by decide

example : parse_bench_line "BenchmarkX/CI/a-1 100 abc rows/s" =
    .ok (some ("X (a=1)", [])) := by decide

example :
    parse_metrics_file ["BenchmarkX/CI/a-1 100 5.0 MB/s"] =
      .ok [("X (a=1)", [("MB/s", [5]), ("values/s", [])])] := by decide

example :
    parse_metrics_file
      ["BenchmarkX/CI/a-1 100 5.0 MB/s 7 values/s",
       "garbage line",
       "BenchmarkX/CI/a-1 100 9.0 MB/s 8 values/s"] =
      .ok [("X (a=1)", [("MB/s", [5, 9]), ("values/s", [7, 8])])] := by decide

example : statMean [1, 2, 3] = .ok 2 := by decide

example : statMedian [1, 2, 3] = .ok 2 := by decide

example : statMedian [1, 2, 3, 4] = .ok (mkRat 5 2) := by decide

example : statMean [mkRat 951 2] = .ok (mkRat 951 2) := by decide

example :
    aggregate_results [("X (a=1)", [("MB/s", [5, 9]), ("values/s", [7, 8])])] .mean =
      .ok [("X (a=1)", [("MB/s", 7), ("values/s", mkRat 15 2)])] := by decide

example :
    aggregate_results [("X (a=1)", [("MB/s", [5]), ("values/s", [])])] .mean =
      .error "statistics.StatisticsError: mean requires at least one data point" := by decide

example : humanize_number none 1 = "?" := by decide

example : humanize_number (some 999) 1 = "999.00" := by decide

example : humanize_number (some 1000) 1 = "1.00K" := by decide

example : humanize_number (some 999999) 1 = "1000.00K" := by decide

example : humanize_number (some 1000000) 1 = "1.00M" := by decide

example : humanize_number (some (mkRat 21873 100)) (2 ^ 20) = "229.36M" := by decide

example :
    format_metric_changes "values/s" (some 100) (some 110) 7 =
      .ok ("100.00" ++ arrowSep ++ "110.00" ++ " (+10.00%) " ++ emojiGood) := by decide

example :
    format_metric_changes "values/s" (some 100) (some 110) 12 =
      .ok ("100.00" ++ arrowSep ++ "110.00" ++ " (+10.00%)") := by decide

example :
    format_metric_changes "values/s" (some 100) (some 90) 7 =
      .ok ("100.00" ++ arrowSep ++ "90.00" ++ " (-10.00%) " ++ emojiBad) := by decide

example :
    format_metric_changes "values/s" none (some 90) 7 =
      .ok ("?" ++ arrowSep ++ "90.00" ++ warnSuffix) := by decide

example :
    format_metric_changes "values/s" (some 0) (some 90) 7 =
      .error "ZeroDivisionError: float division by zero" := by decide

example :
    compare_benchmarks_rows [("B", [("values/s", 100)])] [("B", [("values/s", 110)])] 7 =
      .ok [("B", ["?" ++ arrowSep ++ "?" ++ warnSuffix,
                  "100.00" ++ arrowSep ++ "110.00" ++ " (+10.00%) " ++ emojiGood])] := by
  decide

example :
    compare_benchmarks_rows [("B", [("values/s", 0)])] [("B", [("values/s", 0)])] 7 =
      .error "ZeroDivisionError: float division by zero" := by decide

/-! ## Helper lemmas -/

theorem isPrefixOf_append_self (l t : List Char) : l.isPrefixOf (l ++ t) = true := by
  induction l with
  | nil => simp [List.isPrefixOf]
  | cons c cs ih => simp [List.isPrefixOf, ih]

theorem replaceFuel_nil (pat rep : List Char) (f : Nat) : replaceFuel pat rep f [] = [] := by
  cases f <;> rfl

theorem replaceFuel_congr (pat rep : List Char) :
    ∀ (f1 : Nat) (l : List Char) (f2 : Nat), l.length ≤ f1 → l.length ≤ f2 →
      replaceFuel pat rep f1 l = replaceFuel pat rep f2 l := by
  intro f1
  induction f1 with
  | zero =>
    intro l f2 h1 _
    have : l = [] := List.eq_nil_of_length_eq_zero (Nat.le_zero.mp h1)
    subst this
    rw [replaceFuel_nil, replaceFuel_nil]
  | succ f ih =>
    intro l f2 h1 h2
    cases l with
    | nil => rw [replaceFuel_nil, replaceFuel_nil]
    | cons c rest =>
      cases f2 with
      | zero => simp at h2
      | succ g =>
        simp only [replaceFuel]
        by_cases hc : (pat.isPrefixOf (c :: rest) && !pat.isEmpty) = true
        · rw [if_pos hc, if_pos hc]
          have hpat : 1 ≤ pat.length := by
            rcases Bool.and_eq_true_iff.mp hc with ⟨_, hne⟩
            cases pat with
            | nil => simp at hne
            | cons _ _ => simp
          have hlen : ((c :: rest).drop pat.length).length ≤ f := by
            rw [List.length_drop]
            have h3 : (c :: rest).length ≤ f + 1 := h1
            simp only [List.length_cons] at h3
            omega
          have hlen2 : ((c :: rest).drop pat.length).length ≤ g := by
            rw [List.length_drop]
            have h3 : (c :: rest).length ≤ g + 1 := h2
            simp only [List.length_cons] at h3
            omega
          rw [ih _ _ hlen hlen2]
        · rw [if_neg hc, if_neg hc]
          have hr1 : rest.length ≤ f := by
            have h3 : (c :: rest).length ≤ f + 1 := h1
            simpa using h3
          have hr2 : rest.length ≤ g := by
            have h3 : (c :: rest).length ≤ g + 1 := h2
            simpa using h3
          rw [ih _ _ hr1 hr2]

theorem replaceFuel_append_self (pat rep : List Char) (hne : pat ≠ []) (d : List Char) :
    replaceFuel pat rep (pat ++ d).length (pat ++ d) =
      rep ++ replaceFuel pat rep d.length d := by
  cases pat with
  | nil => exact absurd rfl hne
  | cons p ps =>
    show replaceFuel (p :: ps) rep ((ps ++ d).length + 1) (p :: (ps ++ d)) = _
    simp only [replaceFuel]
    rw [if_pos]
    · have hdrop : (p :: (ps ++ d)).drop (p :: ps).length = d := by
        have h0 := List.drop_left (p :: ps) d
        exact h0
      rw [hdrop]
      rw [replaceFuel_congr (p :: ps) rep ((ps ++ d).length) d (d.length)
        (by simp [List.length_append]) (le_refl _)]
    · have h1 : (p :: ps).isPrefixOf (p :: (ps ++ d)) = true := by
        have h1 := isPrefixOf_append_self (p :: ps) d
        exact h1
      simp [h1]

theorem parsePairs_filter_known (pairs : List (String × String)) :
    ∀ acc, parsePairs pairs acc =
      parsePairs (pairs.filter fun pr => (metricsLookup pr.2).isSome) acc := by
  induction pairs with
  | nil => intro acc; rfl
  | cons hd tl ih =>
    intro acc
    obtain ⟨value, metric⟩ := hd
    by_cases hk : (metricsLookup metric).isSome = true
    · rw [List.filter_cons_of_pos (by simpa using hk)]
      simp only [parsePairs, if_pos hk]
      cases hf : pythonFloat value with
      | none => rfl
      | some v => exact ih _
    · rw [List.filter_cons_of_neg (by simpa using hk)]
      simp only [parsePairs, if_neg hk]
      exact ih acc

theorem parsePairs_firstFail (pairs : List (String × String)) :
    ∀ acc v m, firstFail pairs = some (v, m) →
      parsePairs pairs acc = .error (errMsg v m) := by
  induction pairs with
  | nil => intro acc v m h; exact absurd h (by simp [firstFail])
  | cons hd tl ih =>
    intro acc v m h
    obtain ⟨value, metric⟩ := hd
    by_cases hk : (metricsLookup metric).isSome = true
    · cases hf : pythonFloat value with
      | none =>
        rw [firstFail, if_pos (by simp [hk, hf])] at h
        obtain ⟨rfl, rfl⟩ : value = v ∧ metric = m := by
          have h1 := Option.some.inj h
          exact ⟨congrArg Prod.fst h1, congrArg Prod.snd h1⟩
        simp only [parsePairs, if_pos hk, hf]
      | some q =>
        rw [firstFail, if_neg (by simp [hf])] at h
        simp only [parsePairs, if_pos hk, hf]
        exact ih _ v m h
    · rw [firstFail, if_neg (by simp [hk])] at h
      simp only [parsePairs, if_neg hk]
      exact ih _ v m h

theorem appendInner_keys (m : String) (v : ℚ) (ms : List (String × List ℚ)) :
    (appendInner m v ms).map Prod.fst = ms.map Prod.fst := by
  induction ms with
  | nil => rfl
  | cons hd tl ih =>
    obtain ⟨k, vs⟩ := hd
    by_cases h : (k == m) = true
    · simp [appendInner, h]
    · simp [appendInner, h, ih]

theorem goodKeys_appendObs (name m : String) (v : ℚ)
    (r : List (String × List (String × List ℚ))) (hr : GoodKeys r) :
    GoodKeys (appendObs name m v r) := by
  induction r with
  | nil => intro p hp; simp [appendObs] at hp
  | cons hd tl ih =>
    obtain ⟨b, ms⟩ := hd
    have htl : GoodKeys tl := fun p hp => hr p (List.mem_cons_of_mem _ hp)
    intro p hp
    by_cases hb : (b == name) = true
    · rw [appendObs, if_pos hb] at hp
      rcases List.mem_cons.mp hp with hp1 | hp2
      · subst hp1
        rw [appendInner_keys]
        exact hr (b, ms) (List.mem_cons_self _ _)
      · exact htl p hp2
    · rw [appendObs, if_neg hb] at hp
      rcases List.mem_cons.mp hp with hp1 | hp2
      · subst hp1
        exact hr (b, ms) (List.mem_cons_self _ _)
      · exact ih htl p hp2

theorem goodKeys_applyObs (name : String) (obs : List (String × ℚ)) :
    ∀ r, GoodKeys r → GoodKeys (applyObs name obs r) := by
  induction obs with
  | nil => intro r hr; exact hr
  | cons hd tl ih =>
    intro r hr
    obtain ⟨m, v⟩ := hd
    exact ih _ (goodKeys_appendObs name m v r hr)

theorem initMetrics_keys : initMetrics.map Prod.fst = METRICS.map Prod.fst := by
  simp [initMetrics]

theorem goodKeys_parseLinesAux (lines : List String) :
    ∀ acc res, GoodKeys acc → parseLinesAux lines acc = .ok res → GoodKeys res := by
  induction lines with
  | nil =>
    intro acc res hacc h
    obtain rfl : acc = res := by
      have h1 : Except.ok (ε := String) acc = .ok res := h
      exact Except.ok.inj h1
    exact hacc
  | cons line rest ih =>
    intro acc res hacc h
    rw [parseLinesAux] at h
    cases hp : parse_bench_line line with
    | error e => rw [hp] at h; exact absurd h (by simp)
    | ok o =>
      rw [hp] at h
      cases o with
      | none => exact ih acc res hacc h
      | some nm =>
        obtain ⟨name_test, metrics⟩ := nm
        replace h : (if metrics.isEmpty = true then parseLinesAux rest acc
            else parseLinesAux rest (applyObs name_test metrics
              (if (acc.any fun p => p.1 == name_test) = true then acc
               else acc ++ [(name_test, initMetrics)]))) = Except.ok res := h
        by_cases hm : metrics.isEmpty = true
        · rw [if_pos hm] at h
          exact ih acc res hacc h
        · rw [if_neg hm] at h
          refine ih _ res (goodKeys_applyObs name_test metrics _ ?_) h
          by_cases hin : (acc.any fun p => p.1 == name_test) = true
          · rw [if_pos hin]; exact hacc
          · rw [if_neg hin]
            intro p hp
            rcases List.mem_append.mp hp with hp1 | hp2
            · exact hacc p hp1
            · have : p = (name_test, initMetrics) := by simpa using hp2
              rw [this]
              exact initMetrics_keys

/-! ## Claim theorems -/

/-- C1: the code, not the claim, decides this one.  For the one metric
configuration with improvement direction `down` (the commented-out
`ns/op` entry), old value 100 and new value 90 and alert threshold 10,
`format_metric_changes` renders `-10.00%` but attaches the BAD emoji, not
the good one: `is_better` is `good_direction == 'up' and change_pct > 0`,
so a decrease on a down-direction metric — an improvement — is always
flagged as a regression. -/
theorem down_direction_improvement_gets_bad_emoji :
    nsOpConfig.good_direction = some "down" ∧
    formatMetricChangesCfg nsOpConfig (some 100) (some 90) 10 =
      .ok ("0.00" ++ arrowSep ++ "0.00" ++ " (-10.00%) " ++ emojiBad) ∧
    emojiBad ≠ emojiGood := by
  decide

/-- C5: the name normalizer maps `"Foo/Bar/CI/cpu-4"` to
`"Foo Bar (cpu=4)"` and the single-segment `"Foo"` to `"Foo"`. -/
theorem format_benchmark_name_examples :
    format_benchmark_name "Foo/Bar/CI/cpu-4" = "Foo Bar (cpu=4)" ∧
    format_benchmark_name "Foo" = "Foo" := by
  decide

/-- C4 counterexample: `"Benchmark"` is removed even where it is not a
prefix — `str.replace` removes every occurrence, so the identifier
`"FooBenchmark"` is not left intact but becomes `"Foo"`. -/
theorem benchmark_substring_removed_counterexample :
    format_benchmark_name "FooBenchmark" = "Foo" ∧ "Foo" ≠ "FooBenchmark" := by
  decide

/-- C4 (amended): the normalizer removes every occurrence of
`"Benchmark"`, not only a leading one; in particular a leading
`"Benchmark"` prefix is always removed — prepending it to any identifier
never changes the output. -/
theorem format_benchmark_name_prepend_invariant (s : String) :
    format_benchmark_name ("Benchmark" ++ s) = format_benchmark_name s := by
  unfold format_benchmark_name
  congr 1
  unfold replaceStr
  apply congrArg
  rw [String.data_append]
  rw [replaceFuel_append_self "Benchmark".data "".data (by decide) s.data]
  rfl

/-- C2 counterexample: a qualifying line carrying only one of the two
known metrics leaves the other present with an EMPTY observation list
(`parse_metrics_file` pre-populates `{m: [] for m in METRICS}` for each
new benchmark), and that empty list does reach `statistics.mean`, which
raises. -/
theorem zero_observation_metric_present_counterexample :
    parse_metrics_file ["BenchmarkX/CI/a-1 100 5.0 MB/s"] =
      .ok [("X (a=1)", [("MB/s", [5]), ("values/s", [])])] ∧
    aggregate_results [("X (a=1)", [("MB/s", [5]), ("values/s", [])])] .mean =
      .error "statistics.StatisticsError: mean requires at least one data point" := by
  decide

/-- C2 (amended): every benchmark entry of a `parse_metrics_file` result
carries an entry for EVERY known metric (pre-initialized empty), so a
metric with zero observations is present with an empty list rather than
absent, and `aggregate_results` can be applied to an empty observation
list. -/
theorem parse_metrics_file_keys_full (lines : List String)
    (res : List (String × List (String × List ℚ)))
    (b : String) (ms : List (String × List ℚ))
    (hok : parse_metrics_file lines = .ok res) (hmem : (b, ms) ∈ res) :
    ms.map Prod.fst = METRICS.map Prod.fst :=
  goodKeys_parseLinesAux lines [] res (by intro p hp; simp at hp) hok (b, ms) hmem

/-- Witness for C2 (amended), at the counterexample file. -/
theorem parse_metrics_file_keys_full_witness :
    ([("MB/s", [(5 : ℚ)]), ("values/s", [])]).map Prod.fst = METRICS.map Prod.fst :=
  parse_metrics_file_keys_full ["BenchmarkX/CI/a-1 100 5.0 MB/s"]
    [("X (a=1)", [("MB/s", [5]), ("values/s", [])])] "X (a=1)"
    [("MB/s", [5]), ("values/s", [])] (by decide) (by decide)

/-- C3 counterexample: a malformed value token paired with an UNKNOWN
metric name (`rows/s` is not in `METRICS`) is silently skipped: the
qualifying line parses without error (to the benchmark name and an empty
metric dictionary) even though its value token `"abc"` does not parse as
a number. -/
theorem malformed_value_unknown_metric_no_error :
    parse_bench_line "BenchmarkX/CI/a-1 100 abc rows/s" = .ok (some ("X (a=1)", [])) ∧
    pythonFloat "abc" = none := by
  decide

/-- C3 (amended): on a qualifying benchmark line, a value token that does
not parse as a number makes `parse_bench_line` fail — with the
`ValueError` naming the offending token and the metric — exactly when its
pair's metric name is a KNOWN metric; the error raised is that of the
first such pair. -/
theorem malformed_value_known_metric_fails (line p0 p1 r2 : String) (rest : List String)
    (v m : String)
    (htok : tokenize line = p0 :: p1 :: r2 :: rest)
    (hstart : strStartsWith p0 "Benchmark" = true)
    (hci : strContainsStr p0 "/CI/" = true)
    (hfail : firstFail (toPairs (r2 :: rest)) = some (v, m)) :
    parse_bench_line line = .error (errMsg v m) := by
  rw [parse_bench_line, htok]
  show (if (strStartsWith p0 "Benchmark" && strContainsStr p0 "/CI/") = true then
      Except.map (fun ms => some (format_benchmark_name p0, ms))
        (parsePairs (toPairs (r2 :: rest)) [])
    else Except.ok none) = _
  rw [if_pos (by rw [hstart, hci]; rfl),
    parsePairs_firstFail (toPairs (r2 :: rest)) [] v m hfail]
  rfl

/-- Witness for C3 (amended): the malformed token `"abc"` for the known
metric `MB/s` raises the `ValueError`. -/
theorem malformed_value_known_metric_fails_witness :
    parse_bench_line "BenchmarkX/CI/a-1 100 abc MB/s" = .error (errMsg "abc" "MB/s") :=
  malformed_value_known_metric_fails "BenchmarkX/CI/a-1 100 abc MB/s"
    "BenchmarkX/CI/a-1" "100" "abc" ["MB/s"] "abc" "MB/s"
    (by decide) (by decide) (by decide) (by decide)

/-- C9: on a qualifying benchmark line the parser's result is exactly the
result of processing only the pairs whose metric name is known: a pair
with an unknown metric name is silently skipped, never fails the line,
and the remaining known-metric pairs are still returned. -/
theorem unknown_metric_pairs_skipped (line p0 p1 r2 : String) (rest : List String)
    (htok : tokenize line = p0 :: p1 :: r2 :: rest)
    (hstart : strStartsWith p0 "Benchmark" = true)
    (hci : strContainsStr p0 "/CI/" = true) :
    parse_bench_line line =
      Except.map (fun ms => some (format_benchmark_name p0, ms))
        (parsePairs ((toPairs (r2 :: rest)).filter fun pr => (metricsLookup pr.2).isSome) []) := by
  rw [parse_bench_line, htok]
  show (if (strStartsWith p0 "Benchmark" && strContainsStr p0 "/CI/") = true then
      Except.map (fun ms => some (format_benchmark_name p0, ms))
        (parsePairs (toPairs (r2 :: rest)) [])
    else Except.ok none) = _
  rw [if_pos (by rw [hstart, hci]; rfl),
    parsePairs_filter_known (toPairs (r2 :: rest)) []]

/-- Witness for C9: the unknown `rows/s` pair of a concrete line is
dropped while the known `MB/s` pair is still parsed. -/
theorem unknown_metric_pairs_skipped_witness :
    parse_bench_line "BenchmarkX/CI/a-1 100 9 rows/s 5.0 MB/s" =
      .ok (some ("X (a=1)", [("MB/s", 5)])) := by
  have h := unknown_metric_pairs_skipped "BenchmarkX/CI/a-1 100 9 rows/s 5.0 MB/s"
    "BenchmarkX/CI/a-1" "100" "9" ["rows/s", "5.0", "MB/s"]
    (by decide) (by decide) (by decide)
  rw [h]
  decide

/-- C10: with both sides present, `format_metric_changes` raises
`ZeroDivisionError` if and only if the old value is 0; a missing side
never divides, and a nonzero old value always yields a rendered cell
(no special-casing of the zero old value into a warning). -/
theorem division_by_zero_iff_old_zero (m : String) (cfg : MetricConfig)
    (old_val new_val : Option ℚ) (t : ℚ) (hm : metricsLookup m = some cfg) :
    (format_metric_changes m old_val new_val t).isOk = false ↔
      old_val = some 0 ∧ new_val ≠ none := by
  rw [format_metric_changes, hm]
  cases old_val with
  | none => cases new_val <;> simp [formatMetricChangesCfg, Except.isOk, Except.toBool]
  | some x =>
    cases new_val with
    | none => simp [formatMetricChangesCfg, Except.isOk, Except.toBool]
    | some y =>
      by_cases hx : x = 0
      · subst hx
        simp [formatMetricChangesCfg, Except.isOk, Except.toBool]
      · simp [formatMetricChangesCfg, Except.isOk, Except.toBool, hx]

/-- Witness for C10: old value 0 with a present new value is rejected. -/
theorem division_by_zero_iff_old_zero_witness :
    (format_metric_changes "values/s" (some 0) (some 5) 7).isOk = false :=
  (division_by_zero_iff_old_zero "values/s" ⟨none, some "up", none⟩ (some 0) (some 5) 7
    rfl).mpr ⟨rfl, by decide⟩

/-- C7 counterexample: comparing an aggregated result set against itself
does NOT always yield a `0.00%` cell — a tracked metric whose (equal)
value on both sides is 0 makes the comparison raise `ZeroDivisionError`
instead of rendering a row. -/
theorem self_compare_zero_value_division_error :
    compare_benchmarks_rows [("B", [("values/s", 0)])] [("B", [("values/s", 0)])] 7 =
      .error "ZeroDivisionError: float division by zero" := by
  decide

/-- C7 (amended): for every tracked metric present on both sides with the
same NONZERO value — as when a result set is compared against itself —
the cell shows a `+0.00%` change and never carries an emoji, whatever the
positive alert threshold; a zero shared value instead raises
`ZeroDivisionError`. -/
theorem self_compare_zero_percent_no_emoji (m : String) (cfg : MetricConfig) (v t : ℚ)
    (hm : metricsLookup m = some cfg) (hv : v ≠ 0) (ht : 0 < t) :
    format_metric_changes m (some v) (some v) t =
      .ok (humanize_number (some v) (cfg.scale.getD 1) ++ arrowSep ++
        humanize_number (some v) (cfg.scale.getD 1) ++ " (+0.00%)") := by
  rw [format_metric_changes, hm]
  have hch : qmul (qsub (qdiv v v) 1) 100 = 0 := by
    rw [qmul_eq, qsub_eq, qdiv_eq, div_self hv]
    ring
  simp only [formatMetricChangesCfg]
  rw [if_neg hv, hch]
  rw [show qabs (0 : ℚ) = 0 from by decide]
  rw [if_neg (not_le.mpr ht)]
  rw [show (" (" ++ formatSignedFixed2 (0 : ℚ) ++ "%)") = " (+0.00%)" from by decide]

/-- Witness for C7 (amended): a self-comparison cell at value 100 and
threshold 7. -/
theorem self_compare_zero_percent_no_emoji_witness :
    format_metric_changes "values/s" (some 100) (some 100) 7 =
      .ok ("100.00" ++ arrowSep ++ "100.00" ++ " (+0.00%)") := by
  have h := self_compare_zero_percent_no_emoji "values/s" ⟨none, some "up", none⟩ 100 7
    rfl (by decide) (by decide)
  rw [h]
  decide

/-- C6: on an up-direction tracked metric, old 100 and new 110 renders a
`+10.00%` change; the good emoji is attached exactly when the alert
threshold is at most 10, and no emoji is attached when it is above 10. -/
theorem up_metric_ten_percent_change (m : String) (cfg : MetricConfig) (t : ℚ)
    (hm : metricsLookup m = some cfg) (hdir : cfg.good_direction = some "up") :
    (t ≤ 10 → format_metric_changes m (some 100) (some 110) t =
      .ok (humanize_number (some 100) (cfg.scale.getD 1) ++ arrowSep ++
        humanize_number (some 110) (cfg.scale.getD 1) ++ " (+10.00%)" ++ " " ++ emojiGood)) ∧
    (10 < t → format_metric_changes m (some 100) (some 110) t =
      .ok (humanize_number (some 100) (cfg.scale.getD 1) ++ arrowSep ++
        humanize_number (some 110) (cfg.scale.getD 1) ++ " (+10.00%)")) := by
  rw [format_metric_changes, hm]
  have hch : qmul (qsub (qdiv (110 : ℚ) 100) 1) 100 = 10 := by decide
  simp only [formatMetricChangesCfg]
  rw [if_neg (show ¬((100 : ℚ) = 0) from by decide), hch, hdir]
  rw [show qabs (10 : ℚ) = 10 from by decide]
  rw [show ((some "up" == some "up") && decide ((0 : ℚ) < 10)) = true from by decide]
  rw [show (" (" ++ formatSignedFixed2 (10 : ℚ) ++ "%)") = " (+10.00%)" from by decide]
  constructor
  · intro ht
    rw [if_pos ht, if_pos rfl]
    simp only [← String.append_assoc]
  · intro ht
    rw [if_neg (not_le.mpr ht)]

/-- Witness for C6: the `values/s` metric at thresholds 7 and 12. -/
theorem up_metric_ten_percent_change_witness :
    format_metric_changes "values/s" (some 100) (some 110) 7 =
      .ok ("100.00" ++ arrowSep ++ "110.00" ++ " (+10.00%)" ++ " " ++ emojiGood) ∧
    format_metric_changes "values/s" (some 100) (some 110) 12 =
      .ok ("100.00" ++ arrowSep ++ "110.00" ++ " (+10.00%)") := by
  constructor
  · have h := (up_metric_ten_percent_change "values/s" ⟨none, some "up", none⟩ 7
      rfl rfl).1 (by decide)
    rw [h]
    decide
  · have h := (up_metric_ten_percent_change "values/s" ⟨none, some "up", none⟩ 12
      rfl rfl).2 (by decide)
    rw [h]
    decide

/-- C8: humanization boundaries — magnitudes of at least a million get an
`M` suffix, at least a thousand a `K` suffix, anything smaller neither,
always with two decimals; `999` renders as `999.00`, `1000` as `1.00K`,
`999999` as `1000.00K`, and exactly `1000000` as `1.00M`. -/
theorem humanize_number_boundaries :
    (∀ v s : ℚ, 1000000 ≤ |v * s| →
      humanize_number (some v) s = formatFixed2 (v * s / 1000000) ++ "M") ∧
    (∀ v s : ℚ, |v * s| < 1000000 → 1000 ≤ |v * s| →
      humanize_number (some v) s = formatFixed2 (v * s / 1000) ++ "K") ∧
    (∀ v s : ℚ, |v * s| < 1000 → humanize_number (some v) s = formatFixed2 (v * s)) ∧
    humanize_number (some 999) 1 = "999.00" ∧
    humanize_number (some 1000) 1 = "1.00K" ∧
    humanize_number (some 999999) 1 = "1000.00K" ∧
    humanize_number (some 1000000) 1 = "1.00M" := by
  refine ⟨?_, ?_, ?_, by decide, by decide, by decide, by decide⟩
  · intro v s h
    simp only [humanize_number]
    rw [qmul_eq, qabs_eq, if_pos h, qdiv_eq]
  · intro v s h1 h2
    simp only [humanize_number]
    rw [qmul_eq, qabs_eq, if_neg (not_le.mpr h1), if_pos h2, qdiv_eq]
  · intro v s h
    simp only [humanize_number]
    rw [qmul_eq, qabs_eq, if_neg (not_le.mpr (lt_trans h (by norm_num))),
      if_neg (not_le.mpr h)]

/-- Witness for C8: a two-million value takes the `M` branch. -/
theorem humanize_number_boundaries_witness :
    humanize_number (some 2000000) 1 = "2.00M" := by
  have h := humanize_number_boundaries.1 2000000 1 (by norm_num)
  rw [h, show (2000000 : ℚ) * 1 / 1000000 = 2 from by norm_num]
  decide
